import Mathlib

/-!
Verification of the lifecycle/greeting application (src/src/app.cpp,
src/src/main.cpp, src/include/app.h).

The program is modelled by the trace of observable events it produces:
informational log notices, error-level log lines, and writes to standard
output. Every string below is transcribed from the source; the fmt format
calls are expanded into plain string concatenation.
-/

/-- An observable event of the program: an informational log notice,
an error-level log line, or a write to standard output (the string
carried by `out` is exactly the bytes written, including the newline
appended by `std::endl`). -/
inductive Event where
  | info (msg : String)
  | err (msg : String)
  | out (s : String)
deriving DecidableEq, Repr

/-- The texts of the informational log notices of a trace, in order. -/
def infoTexts (es : List Event) : List String :=
  es.filterMap fun e =>
    match e with
    | Event.info m => some m
    | _ => none

/-- The texts of the error-level log lines of a trace, in order. -/
def errTexts (es : List Event) : List String :=
  es.filterMap fun e =>
    match e with
    | Event.err m => some m
    | _ => none

/-- The strings written to standard output by a trace, in order. -/
def outTexts (es : List Event) : List String :=
  es.filterMap fun e =>
    match e with
    | Event.out s => some s
    | _ => none

namespace App

/-- `fmt::format("Hello, {}!", name)` in `App::greet`. -/
def greetingOf (name : String) : String := "Hello, " ++ name ++ "!"

/-- `App::greet` (src/src/app.cpp:54-63): formats the greeting, logs it
at info level, then writes it with `std::endl` to standard output. -/
def greet (name : String) : List Event :=
  [Event.info (greetingOf name), Event.out (greetingOf name ++ "\n")]

/-- `fmt::format("Processing item #{}", i)` in the loop of `App::run`. -/
def progressMessage (i : Nat) : String := "Processing item #" ++ toString i

/-- `App::run` (src/src/app.cpp:38-52): start notice, two greet calls,
the loop `for (int i = 1; i <= 5; ++i)` logging a progress message, and
the completion notice. -/
def runEvents : List Event :=
  [Event.info "Starting C++ Docker application"]
    ++ greet "Docker World"
    ++ greet "Conan Package Manager"
    ++ (List.range' 1 5).map (fun i => Event.info (progressMessage i))
    ++ [Event.info "Application completed successfully"]

/-- Events of `App::App`, which calls `App::initialize`
(src/src/app.cpp:18-30). -/
def ctorEvents : List Event := [Event.info "Initializing application..."]

/-- Events of `App::~App`, which calls `App::cleanup`
(src/src/app.cpp:22-35). -/
def dtorEvents : List Event := [Event.info "Cleaning up application..."]

end App

/-- The two kinds of C++ exceptions `main` distinguishes: one derived
from `std::exception` (carrying `e.what()`), and anything else. -/
inductive Exc where
  | recognized (msg : String)
  | unrecognized
deriving DecidableEq, Repr

/-- A point at which an exception may surface to `main`: no exception,
an exception during construction of `App` (after `k` of the
constructor events were emitted), or an exception during `app.run()`
(after `k` of the run events were emitted). The source contains no
throw statement, so `noFail` is the execution that actually occurs; the
other cases model the catch clauses of `main`. -/
inductive FailPoint where
  | noFail
  | inCtor (k : Nat) (e : Exc)
  | inRun (k : Nat) (e : Exc)
deriving DecidableEq, Repr

/-- `spdlog::info("=== C++ Docker Application ===")` at the top of the
try block of `main` (src/src/main.cpp:40). -/
def bannerEvents : List Event := [Event.info "=== C++ Docker Application ==="]

/-- The catch clauses of `main` (src/src/main.cpp:48-58). -/
def handlerEvents : Exc → List Event
  | Exc.recognized msg => [Event.err ("Application error: " ++ msg)]
  | Exc.unrecognized => [Event.err "Unknown error occurred"]

/-- `main` (src/src/main.cpp:36-58) as a trace and an exit status.
On `noFail`: banner, constructor, run, then the destructor as `app`
leaves scope, status 0. If the constructor throws, the destructor does
not run (C++ never destroys a partially constructed object); the catch
clause logs and status is 1. If `run` throws, stack unwinding runs the
destructor before the catch clause logs, and status is 1. -/
def mainExec : FailPoint → List Event × Nat
  | FailPoint.noFail =>
      (bannerEvents ++ App.ctorEvents ++ App.runEvents ++ App.dtorEvents, 0)
  | FailPoint.inCtor k e =>
      (bannerEvents ++ App.ctorEvents.take k ++ handlerEvents e, 1)
  | FailPoint.inRun k e =>
      (bannerEvents ++ App.ctorEvents ++ App.runEvents.take k
        ++ App.dtorEvents ++ handlerEvents e, 1)

/-- The exception surfacing to `main`, if any. -/
def raised : FailPoint → Option Exc
  | FailPoint.noFail => none
  | FailPoint.inCtor _ e => some e
  | FailPoint.inRun _ e => some e

/-- Whether the `App` object was fully constructed in this execution. -/
def constructed : FailPoint → Bool
  | FailPoint.inCtor _ _ => false
  | _ => true

/-- The whole program as a function of the command line and the
environment: `main()` takes no parameters and consults neither, so the
execution is the constant `mainExec FailPoint.noFail`. -/
def programMain (_args : List String) (_env : List (String × String)) :
    List Event × Nat :=
  mainExec FailPoint.noFail

theorem errTexts_append (a b : List Event) :
    errTexts (a ++ b) = errTexts a ++ errTexts b := by
  simp [errTexts]

theorem errTexts_sublist {l₁ l₂ : List Event} (h : l₁.Sublist l₂) :
    (errTexts l₁).Sublist (errTexts l₂) :=
  h.filterMap _

theorem errTexts_take_eq_nil (l : List Event) (h : errTexts l = []) (k : Nat) :
    errTexts (l.take k) = [] :=
  List.sublist_nil.mp (h ▸ errTexts_sublist (List.take_sublist k l))

theorem errTexts_inCtor (k : Nat) (e : Exc) :
    errTexts (mainExec (FailPoint.inCtor k e)).1 = errTexts (handlerEvents e) := by
  show errTexts (bannerEvents ++ App.ctorEvents.take k ++ handlerEvents e) = _
  rw [errTexts_append, errTexts_append,
    errTexts_take_eq_nil App.ctorEvents rfl k]
  rfl

theorem errTexts_inRun (k : Nat) (e : Exc) :
    errTexts (mainExec (FailPoint.inRun k e)).1 = errTexts (handlerEvents e) := by
  show errTexts (bannerEvents ++ App.ctorEvents ++ App.runEvents.take k
    ++ App.dtorEvents ++ handlerEvents e) = _
  rw [errTexts_append, errTexts_append, errTexts_append, errTexts_append,
    errTexts_take_eq_nil App.runEvents rfl k]
  rfl

/-- C1: every completed call to run() emits exactly 9 informational log
entries, in this fixed order: one start notice, the greet notice for
"Docker World", the greet notice for "Conan Package Manager", the five
progress notices with indices 1 through 5 in increasing order, and one
completion notice. -/
theorem run_emits_nine_notices_in_order :
    infoTexts App.runEvents =
      ["Starting C++ Docker application",
       App.greetingOf "Docker World",
       App.greetingOf "Conan Package Manager",
       App.progressMessage 1, App.progressMessage 2, App.progressMessage 3,
       App.progressMessage 4, App.progressMessage 5,
       "Application completed successfully"] ∧
    (infoTexts App.runEvents).length = 9 := by
  constructor <;> rfl

/-- C2 counterexample: the first informational notice emitted by run() is
"Starting C++ Docker application", which is not the text
"Starting application" the claim states. -/
theorem run_first_notice_cex :
    (infoTexts App.runEvents).head? = some "Starting C++ Docker application" ∧
    "Starting C++ Docker application" ≠ "Starting application" := by
  exact ⟨rfl, by decide⟩

/-- C2 amended: the first log notice emitted by run() is the text
"Starting C++ Docker application", and the last is the text
"Application completed successfully". -/
theorem run_first_last_notices :
    (infoTexts App.runEvents).head? = some "Starting C++ Docker application" ∧
    (infoTexts App.runEvents).getLast? =
      some "Application completed successfully" := by
  constructor <;> rfl

/-- C3 counterexample: in the actual execution of the program the very
first log notice is the banner "=== C++ Docker Application ===" emitted
by main, not the initializing notice, so a notice does precede the
"Initializing application..." notice emitted by construction. -/
theorem banner_precedes_initializing_cex :
    (infoTexts (mainExec FailPoint.noFail).1).head? =
      some "=== C++ Docker Application ===" ∧
    "=== C++ Docker Application ===" ≠ "Initializing application..." := by
  exact ⟨rfl, by decide⟩

/-- C3 amended: construction emits exactly one
"Initializing application..." notice, and the only log notice preceding
it is the banner "=== C++ Docker Application ===" that main emits before
constructing the Application; the log sink then contains the run notices
of §4.1 in order followed by the cleanup notice. -/
theorem initializing_after_banner_only :
    infoTexts (mainExec FailPoint.noFail).1 =
      "=== C++ Docker Application ===" :: "Initializing application..." ::
        (infoTexts App.runEvents ++ ["Cleaning up application..."]) ∧
    (mainExec FailPoint.noFail).1.count
      (Event.info "Initializing application...") = 1 := by
  exact ⟨rfl, by decide⟩

/-- C5: for every string name, greet(name) constructs "Hello, {name}!",
emits exactly that string as one informational notice, and writes the
same string followed by a newline to standard output; greet("") produces
"Hello, !" and greet("World") produces "Hello, World!". -/
theorem greet_formats_logs_and_prints (name : String) :
    App.greetingOf name = "Hello, " ++ name ++ "!" ∧
    App.greet name = [Event.info (App.greetingOf name),
      Event.out (App.greetingOf name ++ "\n")] ∧
    infoTexts (App.greet name) = [App.greetingOf name] ∧
    outTexts (App.greet name) = [App.greetingOf name ++ "\n"] ∧
    App.greetingOf "" = "Hello, !" ∧
    App.greetingOf "World" = "Hello, World!" := by
  refine ⟨rfl, rfl, rfl, rfl, by decide, by decide⟩

/-- C6: the five progress notices emitted by run() are exactly
"Processing item #1" through "Processing item #5", their indices rising
by one each step (so strictly increasing, no gaps, no repeats). -/
theorem progress_notices_exact :
    ((infoTexts App.runEvents).drop 3).take 5 =
      [1, 2, 3, 4, 5].map App.progressMessage ∧
    [1, 2, 3, 4, 5].map App.progressMessage =
      ["Processing item #1", "Processing item #2", "Processing item #3",
       "Processing item #4", "Processing item #5"] ∧
    List.Chain' (fun a b => b = a + 1) [1, 2, 3, 4, 5] ∧
    List.Chain' (fun a b => a < b) [1, 2, 3, 4, 5] ∧
    [1, 2, 3, 4, 5].Nodup := by
  refine ⟨rfl, by decide, ?_, ?_, by decide⟩ <;> simp [List.chain'_cons]

/-- C8: the successful execution writes exactly two lines to standard
output, one per greet call, "Hello, Docker World!" then
"Hello, Conan Package Manager!", each with its newline, and nothing
else. -/
theorem stdout_exactly_two_greeting_lines :
    outTexts (mainExec FailPoint.noFail).1 =
      [App.greetingOf "Docker World" ++ "\n",
       App.greetingOf "Conan Package Manager" ++ "\n"] ∧
    outTexts (mainExec FailPoint.noFail).1 =
      ["Hello, Docker World!\n", "Hello, Conan Package Manager!\n"] := by
  refine ⟨rfl, by decide⟩

/-- C9: the observable behavior (trace of log lines and standard output,
and exit status) is the same for any command-line arguments and any
environment, since main consults neither. -/
theorem observable_behavior_input_independent
    (args₁ : List String) (env₁ : List (String × String))
    (args₂ : List String) (env₂ : List (String × String)) :
    programMain args₁ env₁ = programMain args₂ env₂ := rfl

/-- C10: within a single call to greet(name), the informational log
notice is emitted strictly before the same greeting string is written to
standard output: the log event sits at index 0 of the greet trace and
the stdout event at index 1. -/
theorem greet_logs_before_stdout (name : String) :
    App.greet name = [Event.info (App.greetingOf name),
      Event.out (App.greetingOf name ++ "\n")] ∧
    ∃ i j : Nat, i < j ∧
      (App.greet name)[i]? = some (Event.info (App.greetingOf name)) ∧
      (App.greet name)[j]? = some (Event.out (App.greetingOf name ++ "\n")) := by
  exact ⟨rfl, 0, 1, by decide, rfl, rfl⟩

/-- C4: the entry point returns 0 when construction and run raise no
error (and writes no error line); when an error surfaces during
construction or run it returns 1 after writing exactly one error line:
"Application error: <message>" for a recognized error, or
"Unknown error occurred" for an unrecognized one. -/
theorem exit_codes_and_error_lines (f : FailPoint) :
    (raised f = none → (mainExec f).2 = 0 ∧ errTexts (mainExec f).1 = []) ∧
    (∀ m, raised f = some (Exc.recognized m) →
      (mainExec f).2 = 1 ∧
      errTexts (mainExec f).1 = ["Application error: " ++ m]) ∧
    (raised f = some Exc.unrecognized →
      (mainExec f).2 = 1 ∧
      errTexts (mainExec f).1 = ["Unknown error occurred"]) := by
  refine ⟨fun h => ?_, fun m h => ?_, fun h => ?_⟩
  · cases f with
    | noFail => exact ⟨rfl, rfl⟩
    | inCtor k e => simp [raised] at h
    | inRun k e => simp [raised] at h
  · cases f with
    | noFail => simp [raised] at h
    | inCtor k e =>
        simp [raised] at h
        subst h
        exact ⟨rfl, by rw [errTexts_inCtor]; rfl⟩
    | inRun k e =>
        simp [raised] at h
        subst h
        exact ⟨rfl, by rw [errTexts_inRun]; rfl⟩
  · cases f with
    | noFail => simp [raised] at h
    | inCtor k e =>
        simp [raised] at h
        subst h
        exact ⟨rfl, by rw [errTexts_inCtor]; rfl⟩
    | inRun k e =>
        simp [raised] at h
        subst h
        exact ⟨rfl, by rw [errTexts_inRun]; rfl⟩

/-- C4 witness: a recognized error surfacing from run yields exit status
1 and the single error line "Application error: boom". -/
theorem exit_codes_and_error_lines_witness :
    (mainExec (FailPoint.inRun 3 (Exc.recognized "boom"))).2 = 1 ∧
    errTexts (mainExec (FailPoint.inRun 3 (Exc.recognized "boom"))).1 =
      ["Application error: " ++ "boom"] :=
  (exit_codes_and_error_lines
    (FailPoint.inRun 3 (Exc.recognized "boom"))).2.1 "boom" rfl

/-- C7: in every execution in which the Application is fully
constructed, the trace contains exactly one "Cleaning up application..."
notice; it comes after the events run emitted (all of them on success,
an initial segment of them when run fails) and before any error line,
matching C++ stack unwinding. -/
theorem cleanup_once_after_run_before_error (f : FailPoint)
    (h : constructed f = true) :
    ∃ k post,
      (mainExec f).1 =
        bannerEvents ++ App.ctorEvents ++ App.runEvents.take k
          ++ App.dtorEvents ++ post ∧
      (∀ m, Event.info m ∉ post) ∧
      (∀ m, Event.err m ∉
        bannerEvents ++ App.ctorEvents ++ App.runEvents.take k) ∧
      (mainExec f).1.count (Event.info "Cleaning up application...") = 1 := by
  cases f with
  | noFail =>
      refine ⟨App.runEvents.length, [], ?_, ?_, ?_, by decide⟩
      · simp [mainExec, List.take_length]
      · simp
      · intro m
        rw [List.take_length]
        simp [bannerEvents, App.ctorEvents, App.runEvents, App.greet]
  | inCtor k e => simp [constructed] at h
  | inRun k e =>
      refine ⟨k, handlerEvents e, rfl, ?_, ?_, ?_⟩
      · intro m
        cases e <;> simp [handlerEvents]
      · intro m hm
        rw [List.mem_append, List.mem_append] at hm
        rcases hm with (hm | hm) | hm
        · simp [bannerEvents] at hm
        · simp [App.ctorEvents] at hm
        · have hmem := (List.take_sublist k App.runEvents).subset hm
          simp [App.runEvents, App.greet] at hmem
      · have hle := (List.take_sublist k App.runEvents).count_le
          (Event.info "Cleaning up application...")
        have h0 : App.runEvents.count
            (Event.info "Cleaning up application...") = 0 := by decide
        have h1 : (App.runEvents.take k).count
            (Event.info "Cleaning up application...") = 0 := by omega
        show (bannerEvents ++ App.ctorEvents ++ App.runEvents.take k
          ++ App.dtorEvents ++ handlerEvents e).count
            (Event.info "Cleaning up application...") = 1
        rw [List.count_append, List.count_append, List.count_append,
          List.count_append, h1]
        have hh : List.count (Event.info "Cleaning up application...")
            (handlerEvents e) = 0 := by
          cases e <;> simp [handlerEvents]
        rw [hh]
        decide

/-- C7 witness: in the successful execution the cleanup notice occurs
exactly once, after all the run events and before any error line. -/
theorem cleanup_once_witness :
    ∃ k post,
      (mainExec FailPoint.noFail).1 =
        bannerEvents ++ App.ctorEvents ++ App.runEvents.take k
          ++ App.dtorEvents ++ post ∧
      (∀ m, Event.info m ∉ post) ∧
      (∀ m, Event.err m ∉
        bannerEvents ++ App.ctorEvents ++ App.runEvents.take k) ∧
      (mainExec FailPoint.noFail).1.count
        (Event.info "Cleaning up application...") = 1 :=
  cleanup_once_after_run_before_error FailPoint.noFail rfl
